import Mathlib

/- Shallow embedding of the career counsellor application in src/openai.py.
   Python strings are modelled as lists of characters; the chat history and the
   resume text held in the session state are modelled as an explicit state
   record; the two remote services are modelled as oracle inputs, with an
   exception from a parser or a transport modelled as an Except.error input. -/

/-- Characters of a Python string are modelled as a list of Lean characters. -/
abbrev Str := List Char

/-- Whitespace test used by the model of the Python str.strip method. -/
def isSpace (c : Char) : Bool := c.isWhitespace

/-- Model of the Python str.strip method: remove whitespace at both ends. -/
def pyStrip (s : Str) : Str :=
  ((s.dropWhile isSpace).reverse.dropWhile isSpace).reverse

/-- Model of the Python str.lower method, character by character. -/
def toLowerStr (s : Str) : Str := s.map Char.toLower

/-- Model of the Python str.capitalize method: first character upper case, rest lower case. -/
def pyCapitalize (s : Str) : Str :=
  match s with
  | [] => []
  | c :: cs => c.toUpper :: cs.map Char.toLower

/-- First argument occurs at the start of the second argument. -/
def leadsWith : Str → Str → Bool
  | [], _ => true
  | _ :: _, [] => false
  | p :: ps, c :: cs => p == c && leadsWith ps cs

/-- Substring containment, the model of the Python in operator on strings. -/
def occursIn (pat : Str) : Str → Bool
  | [] => pat == []
  | c :: cs => leadsWith pat (c :: cs) || occursIn pat cs

/-- Number of positions at which the pattern occurs in the string. -/
def countOccur (pat : Str) : Str → Nat
  | [] => if pat == [] then 1 else 0
  | c :: cs => (if leadsWith pat (c :: cs) then 1 else 0) + countOccur pat cs

/-- Model of the Python str.join method on a list of strings. -/
def joinSep (sep : Str) : List Str → Str
  | [] => []
  | [x] => x
  | x :: y :: ys => x ++ sep ++ joinSep sep (y :: ys)

/-- One chat message in st.session_state.messages: a role and a content. -/
structure Msg where
  role : Str
  content : Str
deriving DecidableEq

/-- A message appended with role user, as in line 149 of src/openai.py. -/
def userMsg (c : Str) : Msg := ⟨"user".toList, c⟩

/-- A message appended with role assistant. -/
def assistantMsg (c : Str) : Msg := ⟨"assistant".toList, c⟩

/-- The DOMAIN_PROMPT constant of src/openai.py, the domain restriction preamble. -/
def DOMAIN_PROMPT : Str :=
  ("You are a helpful and knowledgeable career/job/college counselling specialist. Only respond to career/job/college questions. If a question is outside this domain, politely refuse to answer.").toList

/-- Failure string returned for a DOCX document with no usable text. -/
def docxNoTextMsg : Str := "❌ No text found in DOCX.".toList

/-- Leading part of the failure string returned when reading a DOCX raises. -/
def docxReadErrHead : Str := "❌ Error reading DOCX: ".toList

/-- Failure string returned for a PDF document with no usable text. -/
def pdfNoTextMsg : Str := "❌ No text found in PDF (might be scanned image).".toList

/-- Leading part of the failure string returned when reading a PDF raises. -/
def pdfReadErrHead : Str := "❌ Error reading PDF: ".toList

/-- Fixed reply of search_jobs when the remote data field is missing or empty. -/
def noJobsMsg : Str := "🔍 No jobs found for this query.".toList

/-- Leading part of the reply of search_jobs when the remote call raises. -/
def jobsFetchErrHead : Str := "⚠ Failed to fetch jobs: ".toList

/-- Leading part of the formatted job search reply. -/
def jobsHeader : Str := "Here are some job openings:\n\n".toList

/-- Leading part of the inline chat reply produced when the model call raises. -/
def chatErrHead : Str := "⚠ Error: ".toList

/-- Error shown for an upload whose media type is neither PDF nor DOCX. -/
def unsupportedMsg : Str := "❌ Unsupported file type.".toList

/-- Error shown when the resume guard rejects the extracted text. -/
def failedExtractMsg : Str := "❌ Failed to extract usable text from resume.".toList

/-- Leading part of the error shown when the analysis model call raises. -/
def geminiErrHead : Str := "Gemini error: ".toList

/-- The cross mark character used in band by the extractors to flag failure. -/
def xmark : Str := "❌".toList

/-- The paragraph join computed by extract_text_from_docx: the text of every
paragraph whose stripped text is non empty, in document order, joined by a
single newline, as in line 43 of src/openai.py. -/
def docxJoined (paras : List Str) : Str :=
  joinSep "\n".toList (paras.filter (fun p => decide (pyStrip p ≠ [])))

/-- Model of extract_text_from_docx of src/openai.py.  The underlying DOCX
parse is an input: Except.error models a raised exception, Except.ok carries
the paragraph texts of the parsed document. -/
def extract_text_from_docx (input : Except Str (List Str)) : Str :=
  match input with
  | Except.error e => docxReadErrHead ++ e
  | Except.ok paras =>
      if pyStrip (docxJoined paras) = [] then docxNoTextMsg else docxJoined paras

/-- The accumulation loop of extract_text_from_pdf: a page contributes its text
plus a trailing newline when its extracted text is neither null nor empty. -/
def pdfLoop : Str → List (Option Str) → Str
  | acc, [] => acc
  | acc, t :: ts =>
      pdfLoop (match t with
        | some s => if s = [] then acc else acc ++ s ++ "\n".toList
        | none => acc) ts

/-- The text collected from all pages of a PDF, starting from the empty string. -/
def pdfAllText (pages : List (Option Str)) : Str := pdfLoop [] pages

/-- Contribution of a single page: its text plus a trailing newline when the
page yields extractable text, nothing otherwise. -/
def pageChunk : Option Str → Str
  | some s => if s = [] then [] else s ++ "\n".toList
  | none => []

/-- Model of extract_text_from_pdf of src/openai.py.  The underlying PDF parse
is an input: Except.error models a raised exception, Except.ok carries the per
page extraction results, none standing for a page with no extractable text. -/
def extract_text_from_pdf (input : Except Str (List (Option Str))) : Str :=
  match input with
  | Except.error e => pdfReadErrHead ++ e
  | Except.ok pages =>
      if pyStrip (pdfAllText pages) = [] then pdfNoTextMsg else pdfAllText pages

/-- One job posting as read from the remote data field. -/
structure JobPosting where
  job_title : Str
  employer_name : Str
  job_city : Str
  job_country : Str
  job_apply_link : Str
deriving DecidableEq

/-- The markdown block built for one posting inside search_jobs. -/
def formatJob (j : JobPosting) : Str :=
  "**".toList ++ j.job_title ++ "** at ".toList ++ j.employer_name ++
  "\n📍 ".toList ++ j.job_city ++ ", ".toList ++ j.job_country ++
  "\n🔗 [Apply Here](".toList ++ j.job_apply_link ++ ")".toList

/-- Model of search_jobs of src/openai.py.  The remote exchange is an input:
Except.error models a raised transport or parse exception, Except.ok carries
the optional data field of the JSON response, none standing for a missing
field, which the code defaults to the empty list. -/
def search_jobs (resp : Except Str (Option (List JobPosting))) : Str :=
  match resp with
  | Except.error e => jobsFetchErrHead ++ e
  | Except.ok dataField =>
      if dataField.getD [] = [] then noJobsMsg
      else jobsHeader ++ joinSep "\n\n".toList (((dataField.getD []).take 5).map formatJob)

/-- The job noun vocabulary of line 156 of src/openai.py. -/
def job_keywords : List Str :=
  ["job".toList, "jobs".toList, "openings".toList, "opportunity".toList, "vacancy".toList]

/-- The action vocabulary of line 157 of src/openai.py. -/
def search_keywords : List Str :=
  ["find".toList, "search".toList, "looking".toList, "get".toList, "apply".toList]

/-- The routing condition of line 159 of src/openai.py: some job keyword and
some action keyword both occur in the lower cased utterance. -/
def isJobSearch (u : Str) : Bool :=
  (job_keywords.any (fun jk => occursIn jk (toLowerStr u))) &&
  (search_keywords.any (fun sk => occursIn sk (toLowerStr u)))

/-- The two possible intent decisions for a user utterance. -/
inductive Intent where
  | JOB_SEARCH : Intent
  | GENERAL_QUERY : Intent
deriving DecidableEq

/-- The intent decision taken by the chat submission handler. -/
def classify (u : Str) : Intent :=
  if isJobSearch u then Intent.JOB_SEARCH else Intent.GENERAL_QUERY

/-- The serialized chat history of lines 151 to 153 of src/openai.py: one line
per message, role capitalized, joined by newlines. -/
def serializeHistory (msgs : List Msg) : Str :=
  joinSep "\n".toList (msgs.map (fun m => pyCapitalize m.role ++ ": ".toList ++ m.content))

/-- The full_prompt of line 154 of src/openai.py, built over the message list
as it stands when the prompt is assembled. -/
def fullPrompt (msgs : List Msg) (u : Str) : Str :=
  DOMAIN_PROMPT ++ "\n\n".toList ++ serializeHistory msgs ++ "\nUser: ".toList ++ u

/-- The bot reply of lines 159 to 166 of src/openai.py.  The user turn has
already been appended when full_prompt is built, so the prompt serializes the
history including the current user turn. -/
def chatReply (msgs : List Msg) (u : Str) (lm : Str → Except Str Str)
    (jr : Except Str (Option (List JobPosting))) : Str :=
  if isJobSearch u then search_jobs jr
  else
    match lm (fullPrompt (msgs ++ [userMsg u]) u) with
    | Except.ok t => t
    | Except.error e => chatErrHead ++ e

/-- Description of the TypeError raised at line 168 of src/openai.py: the
st.chat_message call there passes the invalid keyword Avatar, capitalized,
where the display library accepts only the lower case avatar keyword. -/
def chatTypeErrMsg : Str :=
  "TypeError: chat_message got an unexpected keyword argument Avatar".toList

/-- Result of one chat submission: the new message list, the prompt passed to
the language model if the model was called, the reply value computed before
the display call, and the uncaught exception aborting the script run, if any. -/
structure ChatOutcome where
  messages : List Msg
  lmPrompt : Option Str
  reply : Str
  raised : Option Str
deriving DecidableEq

/-- Model of the chat submission block, lines 147 to 169 of src/openai.py:
append the user turn, build the prompt, branch on the routing condition and
compute the reply; the display call at line 168 then passes the invalid
keyword Avatar to st.chat_message and raises TypeError, so the append of the
assistant turn at line 169 never runs and the run aborts with the exception,
the session state keeping only the user turn. -/
def handleChat (msgs : List Msg) (u : Str) (lm : Str → Except Str Str)
    (jr : Except Str (Option (List JobPosting))) : ChatOutcome :=
  ⟨msgs ++ [userMsg u],
   if isJobSearch u then none else some (fullPrompt (msgs ++ [userMsg u]) u),
   chatReply msgs u lm jr,
   some chatTypeErrMsg⟩

/-- The session state of src/openai.py: st.session_state.messages and
st.session_state.resume_text, both persistent across reruns of the script. -/
structure SessState where
  messages : List Msg
  resume_text : Str
deriving DecidableEq

/-- The PDF media type string checked at line 111 of src/openai.py. -/
def pdfMime : Str := "application/pdf".toList

/-- The DOCX media type string checked at line 113 of src/openai.py. -/
def docxMime : Str :=
  "application/vnd.openxmlformats-officedocument.wordprocessingml.document".toList

/-- One uploaded file: its declared media type together with the parse oracle
for each extractor, consumed only when the matching branch runs. -/
structure UploadIn where
  ftype : Str
  docxRes : Except Str (List Str)
  pdfRes : Except Str (List (Option Str))

/-- The analysis_prompt template of lines 125 to 134 of src/openai.py. -/
def analysis_prompt (resume : Str) : Str :=
  "\nYou are a professional career counsellor. Analyze the following resume and provide:\n1. Summary of candidate profile\n2. Strengths and skills\n3. Suggested job roles or industries\n4. Areas of improvement\n\nResume Content:\n".toList
  ++ resume ++ "\n".toList

/-- The guard of line 121 of src/openai.py: the resume text is truthy and does
not contain the cross mark character. -/
def resume_guard (t : Str) : Bool := decide (t ≠ []) && !(occursIn xmark t)

/-- The resume text produced by the media type dispatch of lines 111 to 116 of
src/openai.py.  For an unsupported media type no branch assigns, so the
previously stored session value is kept. -/
def uploadExtract (s : SessState) (up : UploadIn) : Str :=
  if up.ftype = pdfMime then extract_text_from_pdf up.pdfRes
  else if up.ftype = docxMime then extract_text_from_docx up.docxRes
  else s.resume_text

/-- The error shown by the else branch of the media type dispatch. -/
def uploadTypeErrs (up : UploadIn) : List Str :=
  if up.ftype = pdfMime ∨ up.ftype = docxMime then [] else [unsupportedMsg]

/-- Result of the upload handling block: the new session state, the prompt
passed to the language model if it was called, and the errors shown. -/
structure UploadOutcome where
  state : SessState
  lmPrompt : Option Str
  errors : List Str
deriving DecidableEq

/-- Model of the resume upload block, lines 107 to 143 of src/openai.py: store
the extraction result in the session state, and when the guard accepts it call
the model with the analysis prompt, appending an assistant turn only on
success; when the model raises, show the error and append nothing; when the
guard rejects, show the failure and call no model. -/
def uploadAction (s : SessState) (up : UploadIn) (lm : Str → Except Str Str) : UploadOutcome :=
  if resume_guard (uploadExtract s up) then
    match lm (analysis_prompt (uploadExtract s up)) with
    | Except.ok res =>
        ⟨⟨s.messages ++ [assistantMsg res], uploadExtract s up⟩,
         some (analysis_prompt (uploadExtract s up)), uploadTypeErrs up⟩
    | Except.error e =>
        ⟨⟨s.messages, uploadExtract s up⟩,
         some (analysis_prompt (uploadExtract s up)), uploadTypeErrs up ++ [geminiErrHead ++ e]⟩
  else
    ⟨⟨s.messages, uploadExtract s up⟩, none, uploadTypeErrs up ++ [failedExtractMsg]⟩

/-- The session state after the optional upload block of a submission. -/
def uploadState (s : SessState) (up : Option UploadIn) (lm : Str → Except Str Str) : SessState :=
  match up with
  | none => s
  | some x => (uploadAction s x lm).state

/-- One full script run for one submission: the upload block runs first when a
file is attached, then the chat block runs when the resolved user input is non
empty, as in lines 107 and 147 of src/openai.py. -/
def submission (s : SessState) (up : Option UploadIn) (userText : Str)
    (lm : Str → Except Str Str) (jr : Except Str (Option (List JobPosting))) : SessState :=
  if userText = [] then uploadState s up lm
  else ⟨(handleChat (uploadState s up lm).messages userText lm jr).messages,
        (uploadState s up lm).resume_text⟩

/-- The empty session state at session start. -/
def sInit : SessState := ⟨[], []⟩

/-- A language model oracle that always answers. -/
def lmOk : Str → Except Str Str := fun _ => Except.ok "OK REPLY".toList

/-- A language model oracle that always raises a transport fault. -/
def lmBoom : Str → Except Str Str := fun _ => Except.error "boom".toList

/-- A job search response whose JSON body has no data field. -/
def jrNoneResp : Except Str (Option (List JobPosting)) := Except.ok none

/-- The utterance of the first turn scenario for the general query prompt. -/
def q3utter : Str := "What skills do I need for data science?".toList

/-- A posting whose five fields all carry the same short string. -/
def mkPosting (n : Str) : JobPosting := ⟨n, n, n, n, n⟩

/-- Seven postings, to exercise the truncation to five. -/
def jobs7 : List JobPosting :=
  [mkPosting "a".toList, mkPosting "b".toList, mkPosting "c".toList, mkPosting "d".toList,
   mkPosting "e".toList, mkPosting "f".toList, mkPosting "g".toList]

/-- Upload of a DOCX whose only paragraph is blank. -/
def c4EmptyUpload : UploadIn := ⟨docxMime, Except.ok ["   ".toList], Except.ok []⟩

/-- Upload of a DOCX with one ordinary paragraph. -/
def c4GoodUpload : UploadIn := ⟨docxMime, Except.ok ["CV text".toList], Except.ok []⟩

/-- Paragraphs of a DOCX mixing blank and non blank content. -/
def c6Paras : List Str := ["Alice".toList, "".toList, "   ".toList, "Engineer".toList]

/-- Pages of a PDF mixing text pages, a null page and an empty text page. -/
def c7Pages : List (Option Str) :=
  [some "Page one".toList, none, some "".toList, some "Second".toList]

/-- Upload of a DOCX resume with one paragraph of genuine content. -/
def c9Upload1 : UploadIn :=
  ⟨docxMime, Except.ok ["Python developer resume".toList], Except.ok []⟩

/-- The session state after the first upload has been analyzed. -/
def c9State1 : SessState := (uploadAction sInit c9Upload1 lmOk).state

/-- A later upload whose media type is neither PDF nor DOCX. -/
def c9Upload2 : UploadIn := ⟨"text/plain".toList, Except.ok [], Except.ok []⟩

/-- A session state that still holds an earlier resume text. -/
def c9s1 : SessState := ⟨[], "old resume".toList⟩

/-- Paragraphs whose genuine content contains the cross mark character. -/
def c10Paras : List Str := ["Resume with ❌ marker".toList]

theorem leadsWith_iff (p : Str) : ∀ s : Str, leadsWith p s = true ↔ ∃ r, s = p ++ r := by
  induction p with
  | nil => intro s; simp [leadsWith]
  | cons a ps ih =>
    intro s
    cases s with
    | nil =>
      simp [leadsWith]
    | cons c cs =>
      simp only [leadsWith, Bool.and_eq_true, beq_iff_eq, ih cs]
      constructor
      · rintro ⟨hac, r, hr⟩
        exact ⟨r, by simp [hac, hr]⟩
      · rintro ⟨r, hr⟩
        rw [List.cons_append] at hr
        injection hr with h1 h2
        exact ⟨h1.symm, r, h2⟩

theorem occursIn_iff (pat : Str) : ∀ s : Str, occursIn pat s = true ↔ ∃ l r, s = l ++ pat ++ r := by
  intro s
  induction s with
  | nil =>
    simp only [occursIn, beq_iff_eq]
    constructor
    · intro h; exact ⟨[], [], by simp [h]⟩
    · rintro ⟨l, r, h⟩
      rcases List.append_eq_nil.mp h.symm with ⟨h1, h2⟩
      exact (List.append_eq_nil.mp h1).2
  | cons c cs ih =>
    simp only [occursIn, Bool.or_eq_true, ih, leadsWith_iff]
    constructor
    · rintro (⟨r, hr⟩ | ⟨l, r, hr⟩)
      · exact ⟨[], r, by simp [hr]⟩
      · exact ⟨c :: l, r, by simp [hr]⟩
    · rintro ⟨l, r, hr⟩
      cases l with
      | nil =>
        exact Or.inl ⟨r, by simpa using hr⟩
      | cons d ds =>
        simp only [List.cons_append] at hr
        injection hr with h1 h2
        exact Or.inr ⟨ds, r, h2⟩

theorem pyStrip_eq_nil_iff (s : Str) : pyStrip s = [] ↔ ∀ c ∈ s, isSpace c = true := by
  unfold pyStrip
  rw [List.reverse_eq_nil_iff, List.dropWhile_eq_nil_iff]
  constructor
  · intro h c hc
    have hsplit : s.takeWhile isSpace ++ s.dropWhile isSpace = s :=
      List.takeWhile_append_dropWhile isSpace s
    rw [← hsplit] at hc
    rcases List.mem_append.mp hc with h1 | h2
    · exact List.mem_takeWhile_imp h1
    · exact h c (List.mem_reverse.mpr h2)
  · intro h c hc
    exact h c ((List.dropWhile_sublist isSpace).subset (List.mem_reverse.mp hc))

theorem pyStrip_ne_nil_of_mem (s : Str) (c : Char) (hc : c ∈ s) (hns : isSpace c = false) :
    pyStrip s ≠ [] := by
  intro h
  have := (pyStrip_eq_nil_iff s).mp h c hc
  rw [hns] at this
  exact Bool.false_ne_true this

theorem mem_joinSep (sep : Str) :
    ∀ (L : List Str) (p : Str), p ∈ L → ∀ c ∈ p, c ∈ joinSep sep L := by
  intro L
  induction L with
  | nil => intro p hp; cases hp
  | cons x xs ih =>
    intro p hp c hc
    cases xs with
    | nil =>
      rw [List.mem_singleton] at hp
      subst hp
      simpa [joinSep] using hc
    | cons y ys =>
      rcases List.mem_cons.mp hp with h1 | h2
      · subst h1
        simp [joinSep, hc]
      · simp [joinSep, ih p h2 c hc]

theorem pyStrip_joinSep_ne_nil (sep : Str) (L : List Str) (p : Str) (hp : p ∈ L)
    (hps : pyStrip p ≠ []) : pyStrip (joinSep sep L) ≠ [] := by
  have hex : ∃ c ∈ p, isSpace c = false := by
    by_contra hall
    push_neg at hall
    exact hps ((pyStrip_eq_nil_iff p).mpr (fun c hc => by
      have := hall c hc
      cases h : isSpace c with
      | false => exact absurd h this
      | true => rfl))
  rcases hex with ⟨c, hc, hns⟩
  exact pyStrip_ne_nil_of_mem _ c (mem_joinSep sep L p hp c hc) hns

theorem pdfLoop_eq : ∀ (pages : List (Option Str)) (acc : Str),
    pdfLoop acc pages = acc ++ (pages.map pageChunk).flatten := by
  intro pages
  induction pages with
  | nil => intro acc; simp [pdfLoop]
  | cons t ts ih =>
    intro acc
    cases t with
    | none => simp [pdfLoop, ih, pageChunk]
    | some s =>
      by_cases hs : s = []
      · simp [pdfLoop, ih, pageChunk, hs]
      · simp [pdfLoop, ih, pageChunk, hs, List.append_assoc]

theorem uploadExtract_docx (s : SessState) (d : Except Str (List Str))
    (pr : Except Str (List (Option Str))) :
    uploadExtract s ⟨docxMime, d, pr⟩ = extract_text_from_docx d := by
  have h1 : ¬(docxMime = pdfMime) := by decide
  simp [uploadExtract, h1]

/-- Claim C1: for every utterance u, the intent classification returns
JOB_SEARCH if and only if the lower cased utterance contains at least one
token of the job noun vocabulary and at least one token of the action
vocabulary, containment being substring containment as in the Python in
operator; otherwise GENERAL_QUERY.  In particular find me jobs classifies as
JOB_SEARCH and what jobs exist classifies as GENERAL_QUERY. -/
theorem classify_iff_keywords :
    (∀ u : Str, classify u = Intent.JOB_SEARCH ↔
      ((∃ jk ∈ job_keywords, ∃ l r, toLowerStr u = l ++ jk ++ r) ∧
       (∃ sk ∈ search_keywords, ∃ l r, toLowerStr u = l ++ sk ++ r))) ∧
    classify "find me jobs".toList = Intent.JOB_SEARCH ∧
    classify "what jobs exist".toList = Intent.GENERAL_QUERY := by
  refine ⟨fun u => ?_, by decide, by decide⟩
  have hb : isJobSearch u = true ↔
      ((∃ jk ∈ job_keywords, ∃ l r, toLowerStr u = l ++ jk ++ r) ∧
       (∃ sk ∈ search_keywords, ∃ l r, toLowerStr u = l ++ sk ++ r)) := by
    simp only [isJobSearch, Bool.and_eq_true, List.any_eq_true, occursIn_iff]
  rw [← hb]
  unfold classify
  cases h : isJobSearch u with
  | false => simp [h]
  | true => simp [h]

/-- Claim C8: each of the two extractors and the job search call converts an
exception from the underlying parser or transport, modelled as an error input,
into a failure string carrying the error description; being Lean functions
over total inputs, they are total and propagate nothing. -/
theorem client_fault_conversion :
    ∀ e : Str,
      extract_text_from_docx (Except.error e) = docxReadErrHead ++ e ∧
      extract_text_from_pdf (Except.error e) = pdfReadErrHead ++ e ∧
      search_jobs (Except.error e) = jobsFetchErrHead ++ e := by
  intro e
  exact ⟨rfl, rfl, rfl⟩

/-- Claim C5: for a non empty list of postings the formatted reply is the
header followed by the first five postings, formatted in the order returned,
so it contains exactly min of the count and five postings; a missing or empty
data field produces the fixed no jobs found message, not an error. -/
theorem job_reply_truncation :
    (∀ jobs : List JobPosting, jobs ≠ [] →
       search_jobs (Except.ok (some jobs)) =
         jobsHeader ++ joinSep "\n\n".toList ((jobs.take 5).map formatJob) ∧
       (jobs.take 5).length = min jobs.length 5) ∧
    search_jobs (Except.ok none) = noJobsMsg ∧
    search_jobs (Except.ok (some [])) = noJobsMsg := by
  refine ⟨fun jobs hj => ⟨?_, ?_⟩, rfl, rfl⟩
  · simp [search_jobs, hj]
  · simp [List.length_take, Nat.min_comm]

/-- Witness for claim C5: with seven postings returned, the reply is the
formatted first five and exactly five postings are shown. -/
theorem job_reply_truncation_witness :
    (search_jobs (Except.ok (some jobs7)) =
       jobsHeader ++ joinSep "\n\n".toList ((jobs7.take 5).map formatJob) ∧
     (jobs7.take 5).length = min jobs7.length 5) ∧
    (jobs7.take 5).length = 5 :=
  ⟨job_reply_truncation.1 jobs7 (by decide), by decide⟩

/-- Claim C6: for every DOCX input with at least one paragraph whose text is
non blank, extraction succeeds with content equal to those paragraphs joined
by a single newline in document order; when the joined text strips to empty
the extractor returns the no text found failure string instead. -/
theorem docx_extraction_content :
    ∀ paras : List Str,
      ((∃ p ∈ paras, pyStrip p ≠ []) →
        extract_text_from_docx (Except.ok paras) = docxJoined paras ∧
        pyStrip (docxJoined paras) ≠ []) ∧
      (pyStrip (docxJoined paras) = [] →
        extract_text_from_docx (Except.ok paras) = docxNoTextMsg) := by
  intro paras
  constructor
  · rintro ⟨p, hp, hps⟩
    have hpf : p ∈ paras.filter (fun q => decide (pyStrip q ≠ [])) := by
      rw [List.mem_filter]
      exact ⟨hp, by simp [hps]⟩
    have hne : pyStrip (docxJoined paras) ≠ [] :=
      pyStrip_joinSep_ne_nil "\n".toList _ p hpf hps
    refine ⟨?_, hne⟩
    simp only [extract_text_from_docx]
    rw [if_neg hne]
  · intro h
    simp only [extract_text_from_docx]
    rw [if_pos h]

/-- Witness for claim C6: a DOCX whose paragraphs mix blank and non blank
content extracts to the non blank paragraphs joined by one newline. -/
theorem docx_extraction_content_witness :
    extract_text_from_docx (Except.ok c6Paras) = docxJoined c6Paras ∧
    pyStrip (docxJoined c6Paras) ≠ [] ∧
    docxJoined c6Paras = "Alice\nEngineer".toList := by
  obtain ⟨h1, h2⟩ := (docx_extraction_content c6Paras).1 ⟨"Alice".toList, by decide, by decide⟩
  exact ⟨h1, h2, by decide⟩

/-- Claim C7: PDF extraction concatenates, in page order, the text of every
page that yields extractable text followed by one newline, pages yielding
nothing contributing nothing; when the whole result strips to empty the
extractor returns the scanned image failure string, never an empty success. -/
theorem pdf_extraction_content :
    ∀ pages : List (Option Str),
      pdfAllText pages = (pages.map pageChunk).flatten ∧
      (pyStrip (pdfAllText pages) ≠ [] →
        extract_text_from_pdf (Except.ok pages) = pdfAllText pages) ∧
      (pyStrip (pdfAllText pages) = [] →
        extract_text_from_pdf (Except.ok pages) = pdfNoTextMsg) := by
  intro pages
  refine ⟨by simpa using pdfLoop_eq pages [], ?_, ?_⟩
  · intro h
    simp only [extract_text_from_pdf]
    rw [if_neg h]
  · intro h
    simp only [extract_text_from_pdf]
    rw [if_pos h]

/-- Witness for claim C7: a PDF with two text pages, one null page and one
empty text page extracts to the two texts, each with a trailing newline. -/
theorem pdf_extraction_content_witness :
    extract_text_from_pdf (Except.ok c7Pages) = pdfAllText c7Pages ∧
    pdfAllText c7Pages = "Page one\nSecond\n".toList :=
  ⟨(pdf_extraction_content c7Pages).2.1 (by decide), by decide⟩

/-- Claim C2, a code bug: the user turn is appended before any downstream
call, and when the model call raises the formatted error reply is still
computed at line 166; but the display call at line 168 passes the invalid
keyword Avatar to st.chat_message and raises TypeError before the append at
line 169, so no assistant turn is ever appended and the exception propagates,
contradicting the claim on every conversational submission. -/
theorem chat_submission_crash :
    ∀ (s : SessState) (u : Str) (lm : Str → Except Str Str)
      (jr : Except Str (Option (List JobPosting))), u ≠ [] →
      (submission s none u lm jr).messages = s.messages ++ [userMsg u] ∧
      (handleChat s.messages u lm jr).raised = some chatTypeErrMsg ∧
      (∀ e : Str, isJobSearch u = false →
        lm (fullPrompt (s.messages ++ [userMsg u]) u) = Except.error e →
        (handleChat s.messages u lm jr).reply = chatErrHead ++ e) := by
  intro s u lm jr hu
  refine ⟨?_, rfl, ?_⟩
  · simp [submission, uploadState, handleChat, hu]
  · intro e hJS hlm
    simp [handleChat, chatReply, hJS, hlm]

/-- Witness for claim C2: on an empty session with non empty text and a
failing language model, the submission appends the user turn only, the
computed reply carries the formatted error, and the run raises the TypeError
of the invalid Avatar keyword instead of appending an assistant turn. -/
theorem chat_submission_crash_witness :
    (submission sInit none "hello".toList lmBoom jrNoneResp).messages =
      [userMsg "hello".toList] ∧
    (handleChat [] "hello".toList lmBoom jrNoneResp).raised = some chatTypeErrMsg ∧
    (handleChat [] "hello".toList lmBoom jrNoneResp).reply =
      chatErrHead ++ "boom".toList := by
  obtain ⟨h1, h2, h3⟩ :=
    chat_submission_crash sInit "hello".toList lmBoom jrNoneResp (by decide)
  exact ⟨by simpa using h1, h2, h3 "boom".toList (by decide) rfl⟩

set_option maxRecDepth 40000 in
/-- Counterexample for claim C3: on the first turn of a session with the data
science utterance, the prompt sent to the model contains the utterance twice,
not exactly once, and differs from the domain preamble followed by one
User line. -/
theorem prompt_utterance_twice :
    countOccur q3utter (((handleChat [] q3utter lmOk jrNoneResp).lmPrompt).getD []) = 2 ∧
    (handleChat [] q3utter lmOk jrNoneResp).lmPrompt ≠
      some (DOMAIN_PROMPT ++ "\n\nUser: ".toList ++ q3utter) := by
  constructor
  · decide
  · decide

/-- Amended claim C3: for a general query turn, the prompt sent to the model
is the domain preamble, then the serialized history already including the just
appended user turn, then one more User line with the current utterance, so the
current utterance appears twice. -/
theorem general_query_prompt_eq :
    ∀ (msgs : List Msg) (u : Str) (lm : Str → Except Str Str)
      (jr : Except Str (Option (List JobPosting))), isJobSearch u = false →
      (handleChat msgs u lm jr).lmPrompt =
        some (DOMAIN_PROMPT ++ "\n\n".toList ++ serializeHistory (msgs ++ [userMsg u]) ++
              "\nUser: ".toList ++ u) := by
  intro msgs u lm jr h
  simp [handleChat, fullPrompt, h]

/-- Witness for the amended claim C3: the first turn prompt for the data
science utterance serializes the singleton history and repeats the utterance. -/
theorem general_query_prompt_eq_witness :
    (handleChat [] q3utter lmOk jrNoneResp).lmPrompt =
      some (DOMAIN_PROMPT ++ "\n\n".toList ++ serializeHistory [userMsg q3utter] ++
            "\nUser: ".toList ++ q3utter) := by
  have h := general_query_prompt_eq [] q3utter lmOk jrNoneResp (by decide)
  simpa using h

/-- Claim C4: in the document analysis action, a DOCX whose paragraphs are all
blank extracts to the no text found failure, no model call is made, no
assistant turn is appended, and the failure is reported; and when extraction
passes the guard but the model call raises, the error is reported without
appending an assistant turn. -/
theorem analysis_error_containment :
    (∀ (s : SessState) (paras : List Str) (pr : Except Str (List (Option Str)))
       (lm : Str → Except Str Str), (∀ p ∈ paras, pyStrip p = []) →
       uploadExtract s ⟨docxMime, Except.ok paras, pr⟩ = docxNoTextMsg ∧
       (uploadAction s ⟨docxMime, Except.ok paras, pr⟩ lm).lmPrompt = none ∧
       (uploadAction s ⟨docxMime, Except.ok paras, pr⟩ lm).state.messages = s.messages ∧
       failedExtractMsg ∈ (uploadAction s ⟨docxMime, Except.ok paras, pr⟩ lm).errors) ∧
    (∀ (s : SessState) (up : UploadIn) (lm : Str → Except Str Str) (e : Str),
       resume_guard (uploadExtract s up) = true →
       lm (analysis_prompt (uploadExtract s up)) = Except.error e →
       (uploadAction s up lm).state.messages = s.messages ∧
       (geminiErrHead ++ e) ∈ (uploadAction s up lm).errors) := by
  constructor
  · intro s paras pr lm hall
    have hfilter : paras.filter (fun p => decide (pyStrip p ≠ [])) = [] := by
      rw [List.filter_eq_nil_iff]
      intro p hp
      simp [hall p hp]
    have hjoin : docxJoined paras = [] := by
      unfold docxJoined
      rw [hfilter]
      rfl
    have hex : uploadExtract s ⟨docxMime, Except.ok paras, pr⟩ = docxNoTextMsg := by
      rw [uploadExtract_docx]
      simp [extract_text_from_docx, hjoin, pyStrip]
    have hg : resume_guard docxNoTextMsg = false := by decide
    refine ⟨hex, ?_, ?_, ?_⟩ <;> simp [uploadAction, hex, hg, List.mem_append]
  · intro s up lm e hg hlm
    constructor <;> simp [uploadAction, hg, hlm, List.mem_append]

/-- Witness for claim C4: a one paragraph blank DOCX triggers the failure
branch with no model call and no appended turn, and a good DOCX with a
failing model reports the error and appends nothing. -/
theorem analysis_error_containment_witness :
    (uploadExtract sInit c4EmptyUpload = docxNoTextMsg ∧
     (uploadAction sInit c4EmptyUpload lmOk).lmPrompt = none ∧
     (uploadAction sInit c4EmptyUpload lmOk).state.messages = sInit.messages ∧
     failedExtractMsg ∈ (uploadAction sInit c4EmptyUpload lmOk).errors) ∧
    ((uploadAction sInit c4GoodUpload lmBoom).state.messages = sInit.messages ∧
     (geminiErrHead ++ "boom".toList) ∈ (uploadAction sInit c4GoodUpload lmBoom).errors) :=
  ⟨analysis_error_containment.1 sInit ["   ".toList] (Except.ok []) lmOk (by decide),
   analysis_error_containment.2 sInit c4GoodUpload lmBoom "boom".toList (by decide) rfl⟩

/-- Claim C10: the analysis action treats extraction as successful exactly
when the stored text is non empty and free of the cross mark character, the
in band failure encoding; hence a DOCX whose extracted content contains the
cross mark is treated as a failure: no model call and no appended turn. -/
theorem inband_error_encoding :
    (∀ t : Str, resume_guard t = true ↔ (t ≠ [] ∧ occursIn xmark t = false)) ∧
    (∀ (s : SessState) (paras : List Str) (pr : Except Str (List (Option Str)))
       (lm : Str → Except Str Str),
       occursIn xmark (extract_text_from_docx (Except.ok paras)) = true →
       (uploadAction s ⟨docxMime, Except.ok paras, pr⟩ lm).lmPrompt = none ∧
       (uploadAction s ⟨docxMime, Except.ok paras, pr⟩ lm).state.messages = s.messages) := by
  constructor
  · intro t
    simp [resume_guard, Bool.and_eq_true]
  · intro s paras pr lm hocc
    have hg : resume_guard (uploadExtract s ⟨docxMime, Except.ok paras, pr⟩) = false := by
      rw [uploadExtract_docx]
      simp [resume_guard, hocc]
    constructor <;> simp [uploadAction, hg]

/-- Witness for claim C10: a resume whose genuine paragraph contains the cross
mark extracts successfully to its own text, yet the analysis action makes no
model call and appends no assistant turn. -/
theorem inband_error_encoding_witness :
    (resume_guard "good resume".toList = true ↔
      ("good resume".toList ≠ [] ∧ occursIn xmark "good resume".toList = false)) ∧
    extract_text_from_docx (Except.ok c10Paras) = "Resume with ❌ marker".toList ∧
    (uploadAction sInit ⟨docxMime, Except.ok c10Paras, Except.ok []⟩ lmOk).lmPrompt = none ∧
    (uploadAction sInit ⟨docxMime, Except.ok c10Paras, Except.ok []⟩ lmOk).state.messages =
      sInit.messages := by
  obtain ⟨h1, h2⟩ := inband_error_encoding.2 sInit c10Paras (Except.ok []) lmOk (by decide)
  exact ⟨inband_error_encoding.1 "good resume".toList, by decide, h1, h2⟩

set_option maxRecDepth 40000 in
/-- Counterexample for claim C9: the extracted resume text is kept in the
session state after the analysis action completes, and a later upload with an
unsupported media type re-runs the analysis on the previously uploaded resume,
calling the model with the old content and appending an assistant turn, so a
later turn of the session does depend on a previously uploaded resume. -/
theorem resume_text_persistence_cex :
    c9State1.resume_text = "Python developer resume".toList ∧
    (uploadAction c9State1 c9Upload2 lmOk).lmPrompt =
      some (analysis_prompt "Python developer resume".toList) ∧
    (uploadAction c9State1 c9Upload2 lmOk).state.messages =
      c9State1.messages ++ [assistantMsg "OK REPLY".toList] := by
  refine ⟨by decide, by decide, by decide⟩

/-- Amended claim C9: the extracted resume text is stored in session
persistent state, but a submission without an upload neither reads nor writes
it and its appended messages are independent of it, and an upload with a
supported media type overwrites it before any use, so only an upload with an
unsupported media type can make behavior depend on a previously uploaded
resume. -/
theorem resume_state_isolation :
    (∀ (s : SessState) (u : Str) (lm : Str → Except Str Str)
       (jr : Except Str (Option (List JobPosting))),
       (submission s none u lm jr).resume_text = s.resume_text) ∧
    (∀ (s₁ s₂ : SessState) (u : Str) (lm : Str → Except Str Str)
       (jr : Except Str (Option (List JobPosting))), s₁.messages = s₂.messages →
       (submission s₁ none u lm jr).messages = (submission s₂ none u lm jr).messages) ∧
    (∀ (s₁ s₂ : SessState) (up : UploadIn) (lm : Str → Except Str Str),
       s₁.messages = s₂.messages → (up.ftype = pdfMime ∨ up.ftype = docxMime) →
       uploadAction s₁ up lm = uploadAction s₂ up lm) := by
  refine ⟨?_, ?_, ?_⟩
  · intro s u lm jr
    by_cases hu : u = [] <;> simp [submission, uploadState, hu]
  · intro s₁ s₂ u lm jr h
    by_cases hu : u = [] <;> simp [submission, uploadState, hu, h]
  · intro s₁ s₂ up lm hmsg hft
    obtain ⟨m1, r1⟩ := s₁
    obtain ⟨m2, r2⟩ := s₂
    replace hmsg : m1 = m2 := hmsg
    subst hmsg
    have hex : uploadExtract ⟨m1, r1⟩ up = uploadExtract ⟨m1, r2⟩ up := by
      rcases hft with h | h
      · simp [uploadExtract, h]
      · by_cases hp : up.ftype = pdfMime
        · simp [uploadExtract, hp]
        · simp [uploadExtract, hp, h]
    unfold uploadAction
    rw [hex]

/-- Witness for the amended claim C9: a chat only submission keeps the stored
resume text and appends the same messages whatever that stored text is, and a
supported upload gives identical outcomes from states differing only in the
stored resume text. -/
theorem resume_state_isolation_witness :
    (submission c9s1 none "hi".toList lmOk jrNoneResp).resume_text = c9s1.resume_text ∧
    (submission c9s1 none "hi".toList lmOk jrNoneResp).messages =
      (submission sInit none "hi".toList lmOk jrNoneResp).messages ∧
    uploadAction c9s1 c9Upload1 lmOk = uploadAction sInit c9Upload1 lmOk :=
  ⟨resume_state_isolation.1 c9s1 "hi".toList lmOk jrNoneResp,
   resume_state_isolation.2.1 c9s1 sInit "hi".toList lmOk jrNoneResp rfl,
   resume_state_isolation.2.2 c9s1 sInit c9Upload1 lmOk rfl (Or.inr rfl)⟩
